import Mathlib

/-!
Shallow embedding of the incremental DICOM synchronization engine in
`pacs-query.py`: the processed-UID ledger (`load_processed_uids`,
`save_processed_uid`), the change detector (`query_for_new_studies`), the
retriever (`retrieve_and_save_study`) and the orchestrator (`main`).

Modelling conventions:
* The ledger file on disk is `Option (List String)`: `none` when the file
  does not exist, otherwise its list of lines (each python `write(uid + nl)`
  appends one line).
* Python truthiness on the tag strings (`if not study_uid`) is explicit:
  `None` and the empty string are falsy.
* `datetime` values are encoded as the natural number `YYYYMMDDHHMMSS`,
  which is an order-preserving encoding of chronological order on valid
  datetimes; the window start `start_time = now - QUERY_WINDOW` is taken as
  a parameter in this encoding.
* Network and file I/O results are data: an instance carries the bytes
  `get_file` would return (`none` models a raised fetch error) and a flag
  for whether the local write succeeds; the `tools/find` call either
  returns the candidate list or raises (modelled by an error value).
-/

set_option autoImplicit false

namespace PacsQuery

/-- Python truthiness of an optional string value: `None` and `""` are
falsy, every other string is truthy. -/
def optStrTruthy : Option String → Bool
  | none => false
  | some s => s ≠ ""

/-- The on-disk ledger file `processed_study_uids.txt`: `none` when the
file does not exist, otherwise its list of lines. -/
abbrev LedgerFile := Option (List String)

/-- The lines of the ledger file (empty when the file does not exist). -/
def ledgerLines : LedgerFile → List String
  | none => []
  | some lines => lines

/-- Embedding of python `line.strip()`: removes leading and trailing
whitespace characters. -/
def pyStrip (s : String) : String :=
  ((s.toList.dropWhile Char.isWhitespace).reverse.dropWhile
      Char.isWhitespace).reverse.asString

/-- Embedding of `load_processed_uids`: returns the empty set when the
file does not exist, otherwise the set of stripped, non-blank lines
(`{line.strip() for line in f if line.strip()}`). -/
def load_processed_uids : LedgerFile → Finset String
  | none => ∅
  | some lines => ((lines.map pyStrip).filter (fun l => l ≠ "")).toFinset

/-- Embedding of `save_processed_uid`: appends `uid` as one new line to the
ledger file (`open(..., mode a)` creates the file when missing). -/
def save_processed_uid (uid : String) : LedgerFile → LedgerFile
  | none => some [uid]
  | some lines => some (lines ++ [uid])

/-- The `MainDicomTags` dictionary of a study as returned by
`get_main_information()`; each tag may be absent. -/
structure MainDicomTags where
  StudyInstanceUID : Option String
  StudyDate : Option String
  StudyTime : Option String
deriving Repr, DecidableEq

/-- One DICOM instance as the retriever sees it: its UID, the bytes
`instance.get_file()` returns (`none` models a raised fetch error), and
whether the local file write succeeds (`false` models a raised I/O
error). -/
structure DicomInstance where
  uid : String
  fileBytes : Option (List Nat)
  writeOk : Bool
deriving Repr, DecidableEq

/-- A study as observed through the Orthanc client within one run: its
ephemeral Orthanc ID, its `MainDicomTags`, and its instances flattened in
the order the nested `for series / for instance` loops visit them. -/
structure RemoteStudy where
  orthancID : String
  tags : MainDicomTags
  instances : List DicomInstance
deriving Repr, DecidableEq

/-- Number of days in a month with Gregorian leap years, matching the
validity check of the python `datetime` constructor. -/
def daysInMonth (y m : Nat) : Nat :=
  if m = 2 then (if (y % 4 = 0 ∧ y % 100 ≠ 0) ∨ y % 400 = 0 then 29 else 28)
  else if m = 4 ∨ m = 6 ∨ m = 9 ∨ m = 11 then 30 else 31

/-- Value of a list of decimal digit characters. -/
def digitsVal (cs : List Char) : Nat :=
  cs.foldl (fun n c => n * 10 + (c.toNat - 48)) 0

/-- Embedding of `datetime.strptime(s, percentY-m-d-H-M-S)` as applied to the
concatenated `StudyDate`/`StudyTime` string: accepts exactly 14 decimal
digits forming a valid calendar datetime and returns it encoded as the
number `YYYYMMDDHHMMSS`; returns `none` where python raises `ValueError`. -/
def strptime14 (s : String) : Option Nat :=
  let cs := s.toList
  if cs.length = 14 ∧ cs.all Char.isDigit then
    let y := digitsVal (cs.take 4)
    let mo := digitsVal ((cs.drop 4).take 2)
    let d := digitsVal ((cs.drop 6).take 2)
    let h := digitsVal ((cs.drop 8).take 2)
    let mi := digitsVal ((cs.drop 10).take 2)
    let sec := digitsVal ((cs.drop 12).take 2)
    if 1 ≤ y ∧ 1 ≤ mo ∧ mo ≤ 12 ∧ 1 ≤ d ∧ d ≤ daysInMonth y mo ∧
        h ≤ 23 ∧ mi ≤ 59 ∧ sec ≤ 59 then
      some (digitsVal cs)
    else none
  else none

/-- Embedding of python `s.split(sep)[0]` for the dot separator: the prefix
of `s` before the first dot. -/
def splitDot0 (s : String) : String :=
  (s.toList.takeWhile (fun c => c ≠ '.')).asString

/-- Diagnostic lines the change detector prints, kept as structured
events: the warning for a study without `StudyInstanceUID`, the
found-new-study progress line, the warning for an unparsable
date/time, and the error printed by the `except` clause of
`query_for_new_studies`. -/
inductive LogEvent where
  | warnNoStudyUID (orthancID : String)
  | foundNewStudy (uid : String)
  | warnUnparsableDateTime (uid dateStr timeStr : String)
  | errorDuringQuery (msg : String)
deriving Repr, DecidableEq

/-- Body of the candidate loop of `query_for_new_studies` for one
candidate: returns the Orthanc ID appended to `new_studies` (if any)
together with the lines printed for this candidate, following the source
order: missing or empty `StudyInstanceUID` warns and skips; a UID already
in `processed_uids` skips silently; a missing or empty `StudyDate` skips
silently; an unparsable date/time warns and skips; otherwise the study is
included iff its datetime is at least `start_time`. -/
def examineCandidate (start_time : Nat) (processed_uids : Finset String)
    (c : RemoteStudy) : Option String × List LogEvent :=
  match c.tags.StudyInstanceUID with
  | none => (none, [LogEvent.warnNoStudyUID c.orthancID])
  | some study_uid =>
    if study_uid = "" then (none, [LogEvent.warnNoStudyUID c.orthancID])
    else if study_uid ∈ processed_uids then (none, [])
    else
      match c.tags.StudyDate with
      | none => (none, [])
      | some study_date_str =>
        if study_date_str = "" then (none, [])
        else
          let study_time_str := c.tags.StudyTime.getD "000000"
          match strptime14 (study_date_str ++ splitDot0 study_time_str) with
          | none =>
            (none, [LogEvent.warnUnparsableDateTime study_uid study_date_str study_time_str])
          | some study_datetime =>
            if start_time ≤ study_datetime then
              (some c.orthancID, [LogEvent.foundNewStudy study_uid])
            else (none, [])

/-- The candidate loop of `query_for_new_studies` over the studies the
`tools/find` query returned, accumulating the `new_studies` list and the
printed lines in order. -/
def queryLoop (start_time : Nat) (processed_uids : Finset String) :
    List RemoteStudy → List String × List LogEvent
  | [] => ([], [])
  | c :: rest =>
    let r := examineCandidate start_time processed_uids c
    let q := queryLoop start_time processed_uids rest
    (r.1.toList ++ q.1, r.2 ++ q.2)

/-- Embedding of `query_for_new_studies`: when the `tools/find` call
raises (for example a connection error), the `except` clause prints the
error and the function returns the `new_studies` accumulated so far, which
is the empty list — the exception does not escape; otherwise the candidate
loop runs. -/
def query_for_new_studies (start_time : Nat)
    (findResult : Except String (List RemoteStudy))
    (processed_uids : Finset String) : List String × List LogEvent :=
  match findResult with
  | Except.error msg => ([], [LogEvent.errorDuringQuery msg])
  | Except.ok cands => queryLoop start_time processed_uids cands

/-- The nested instance loop of `retrieve_and_save_study`: fetches and
writes each instance in turn, counting successful writes; a raised fetch
or write error aborts the loop, modelled by `none`. -/
def saveInstances : List DicomInstance → Nat → Option Nat
  | [], n => some n
  | inst :: rest, n =>
    match inst.fileBytes with
    | none => none
    | some _ => if inst.writeOk then saveInstances rest (n + 1) else none

/-- Embedding of `retrieve_and_save_study`: resolves the StudyInstanceUID
from the main information (a missing UID makes `os.path.join` raise, which
the `except` clause turns into `None`), then fetches and writes every
instance; any raised error yields `None`, otherwise the UID is returned. -/
def retrieve_and_save_study (c : RemoteStudy) : Option String :=
  match c.tags.StudyInstanceUID with
  | none => none
  | some study_uid =>
    match saveInstances c.instances 0 with
    | none => none
    | some _ => some study_uid

/-- The view of the remote server and the local file system during one
run: the studies the server holds (deterministic within the run — the
change detector and the retriever observe the same data), whether the
`tools/find` call raises (carrying the error message), and whether some
`save_processed_uid` call raises: `ledgerFailAt = some j` means the j-th
ledger-append attempt of the run raises an I/O error (for example
`OSError` from `open` or `write`) while every earlier attempt succeeds.
Since the run dies at its first raised append, an arbitrary pattern of
append failures is observably equal to its first failing attempt. -/
structure RunEnv where
  studies : List RemoteStudy
  findError : Option String
  ledgerFailAt : Option Nat
deriving Repr, DecidableEq

/-- Resolving `Study(study_id, client)` in the retrieval loop: the server
returns the study with the given Orthanc ID; an unknown ID makes the
client raise, which `retrieve_and_save_study` turns into `None`. -/
def lookupStudy (studies : List RemoteStudy) (oid : String) : Option RemoteStudy :=
  studies.find? (fun c => c.orthancID = oid)

/-- Retrieval of one discovered study by its Orthanc ID, as called from
the loop in `main`. -/
def retrieveByID (studies : List RemoteStudy) (oid : String) : Option String :=
  match lookupStudy studies oid with
  | none => none
  | some c => retrieve_and_save_study c

/-- Outcome of the retrieval loop of `main`: the ledger file after the
loop, the UIDs committed in order, and whether the loop was cut short by
an exception raised from a `save_processed_uid` file append — which is
not caught inside the loop and propagates to the `except Exception`
handler of `main`. -/
structure LoopResult where
  ledger : LedgerFile
  committed : List String
  aborted : Bool
deriving Repr, DecidableEq

/-- The retrieval loop of `main` over the discovered Orthanc IDs: threads
the ledger file, and after each successful retrieval whose returned UID is
truthy appends that UID to the ledger (`save_processed_uid`); a failed
retrieval changes nothing and the loop continues. The append itself is
file I/O: when the environment says the current append attempt (counted
by `k`) raises, the exception escapes the loop, leaving the studies after
this one unprocessed and the current study uncommitted. -/
def retrievalLoop (studies : List RemoteStudy) (ledgerFailAt : Option Nat) :
    List String → LedgerFile → Nat → LoopResult
  | [], ledger, _ => ⟨ledger, [], false⟩
  | oid :: rest, ledger, k =>
    match retrieveByID studies oid with
    | none => retrievalLoop studies ledgerFailAt rest ledger k
    | some uid =>
      if uid = "" then retrievalLoop studies ledgerFailAt rest ledger k
      else if ledgerFailAt = some k then ⟨ledger, [], true⟩
      else
        let r := retrievalLoop studies ledgerFailAt rest
          (save_processed_uid uid ledger) (k + 1)
        ⟨r.ledger, uid :: r.committed, r.aborted⟩

/-- Observable outcome of one invocation of `main`. -/
structure RunResult where
  finalLedger : LedgerFile
  detectedIDs : List String
  committed : List String
  exitCode : Nat
  log : List LogEvent
deriving Repr, DecidableEq

/-- Embedding of `main` for one run, given the window start, the view of
the server and the ledger file on disk: load the processed set, query for
new studies, return early when none were found, otherwise run the
retrieval loop. A connection error raised by `tools/find` is caught
inside `query_for_new_studies`, so the run still exits 0 there; the
`except httpx.ConnectError` handler in `main` guards only the client
construction, which performs no network I/O. An I/O error raised by a
`save_processed_uid` append, however, is not caught per study: it reaches
the `except Exception` handler of `main`, which prints the error and calls
`sys.exit(1)`, so an aborted retrieval loop gives exit code 1. -/
def runMain (start_time : Nat) (env : RunEnv) (ledgerFile : LedgerFile) :
    RunResult :=
  let processed_uids := load_processed_uids ledgerFile
  let findResult : Except String (List RemoteStudy) :=
    match env.findError with
    | some msg => Except.error msg
    | none => Except.ok env.studies
  let q := query_for_new_studies start_time findResult processed_uids
  if q.1 = [] then
    { finalLedger := ledgerFile, detectedIDs := [], committed := [],
      exitCode := 0, log := q.2 }
  else
    let r := retrievalLoop env.studies env.ledgerFailAt q.1 ledgerFile 0
    { finalLedger := r.ledger, detectedIDs := q.1, committed := r.committed,
      exitCode := if r.aborted then 1 else 0, log := q.2 }

/-! ### Helper lemmas about the ledger -/

/-- Membership in the loaded processed set: exactly the non-blank stripped
lines of the file. -/
theorem mem_load_some_iff (lines : List String) (u : String) :
    u ∈ load_processed_uids (some lines) ↔
      u ≠ "" ∧ ∃ l ∈ lines, pyStrip l = u := by
  simp only [load_processed_uids, List.mem_toFinset, List.mem_filter,
    List.mem_map, ne_eq, decide_eq_true_eq]
  constructor
  · rintro ⟨⟨l, hl, rfl⟩, hne⟩
    exact ⟨hne, l, hl, rfl⟩
  · rintro ⟨hne, l, hl, rfl⟩
    exact ⟨⟨l, hl, rfl⟩, hne⟩

/-- Appending a line to the ledger file appends it to the line list. -/
theorem ledgerLines_save (uid : String) (ledger : LedgerFile) :
    ledgerLines (save_processed_uid uid ledger) = ledgerLines ledger ++ [uid] := by
  cases ledger <;> rfl

/-- Loading never shrinks when the underlying line list grows. -/
theorem load_mono_of_lines_subset (L₁ L₂ : LedgerFile)
    (h : ledgerLines L₁ ⊆ ledgerLines L₂) (u : String)
    (hu : u ∈ load_processed_uids L₁) : u ∈ load_processed_uids L₂ := by
  cases L₁ with
  | none => simp [load_processed_uids] at hu
  | some l₁ =>
    rcases (mem_load_some_iff l₁ u).1 hu with ⟨hne, l, hl, hlu⟩
    cases L₂ with
    | none =>
      have : l ∈ ([] : List String) := h hl
      simp at this
    | some l₂ => exact (mem_load_some_iff l₂ u).2 ⟨hne, l, h hl, hlu⟩

/-! ### Helper lemmas about the change detector -/

/-- A candidate whose `StudyInstanceUID` is missing or empty is skipped
with a warning. -/
theorem examineCandidate_noUID (W : Nat) (P : Finset String) (c : RemoteStudy)
    (h : optStrTruthy c.tags.StudyInstanceUID = false) :
    examineCandidate W P c = (none, [LogEvent.warnNoStudyUID c.orthancID]) := by
  match hu : c.tags.StudyInstanceUID with
  | none => simp [examineCandidate, hu]
  | some s =>
    have hs : s = "" := by simpa [optStrTruthy, hu] using h
    simp [examineCandidate, hu, hs]

/-- A candidate whose UID is already in the processed set is skipped
silently, whatever its date and time tags are. -/
theorem examineCandidate_of_mem (W : Nat) (P : Finset String) (c : RemoteStudy)
    (u : String) (hu : c.tags.StudyInstanceUID = some u) (hne : u ≠ "")
    (hmem : u ∈ P) : examineCandidate W P c = (none, []) := by
  simp [examineCandidate, hu, hne, hmem]

/-- A new candidate whose `StudyDate` is missing or empty is skipped with
no printed line. -/
theorem examineCandidate_noDate (W : Nat) (P : Finset String) (c : RemoteStudy)
    (u : String) (hu : c.tags.StudyInstanceUID = some u) (hne : u ≠ "")
    (hmem : u ∉ P)
    (hd : c.tags.StudyDate = none ∨ c.tags.StudyDate = some "") :
    examineCandidate W P c = (none, []) := by
  rcases hd with hd | hd <;> simp [examineCandidate, hu, hne, hmem, hd]

/-- A new candidate whose concatenated date/time does not parse is skipped
with a warning. -/
theorem examineCandidate_unparsable (W : Nat) (P : Finset String)
    (c : RemoteStudy) (u d : String) (hu : c.tags.StudyInstanceUID = some u)
    (hne : u ≠ "") (hmem : u ∉ P) (hd : c.tags.StudyDate = some d)
    (hdne : d ≠ "")
    (hp : strptime14 (d ++ splitDot0 (c.tags.StudyTime.getD "000000")) = none) :
    examineCandidate W P c =
      (none, [LogEvent.warnUnparsableDateTime u d (c.tags.StudyTime.getD "000000")]) := by
  simp [examineCandidate, hu, hne, hmem, hd, hdne, hp]

/-- A new candidate with a parsable datetime is included exactly when that
datetime is at least the window start. -/
theorem examineCandidate_parsed (W : Nat) (P : Finset String)
    (c : RemoteStudy) (u d : String) (T : Nat)
    (hu : c.tags.StudyInstanceUID = some u) (hne : u ≠ "") (hmem : u ∉ P)
    (hd : c.tags.StudyDate = some d) (hdne : d ≠ "")
    (hp : strptime14 (d ++ splitDot0 (c.tags.StudyTime.getD "000000")) = some T) :
    examineCandidate W P c =
      if W ≤ T then (some c.orthancID, [LogEvent.foundNewStudy u])
      else (none, []) := by
  simp [examineCandidate, hu, hne, hmem, hd, hdne, hp]

/-- Unfolding the candidate loop one step. -/
theorem queryLoop_cons (W : Nat) (P : Finset String) (c : RemoteStudy)
    (rest : List RemoteStudy) :
    queryLoop W P (c :: rest) =
      ((examineCandidate W P c).1.toList ++ (queryLoop W P rest).1,
       (examineCandidate W P c).2 ++ (queryLoop W P rest).2) := rfl

/-- An included candidate contributes its Orthanc ID to the result of the
candidate loop. -/
theorem mem_queryLoop_of_detect (W : Nat) (P : Finset String)
    (cands : List RemoteStudy) (c : RemoteStudy) (oid : String)
    (hc : c ∈ cands) (h : (examineCandidate W P c).1 = some oid) :
    oid ∈ (queryLoop W P cands).1 := by
  induction cands with
  | nil => simp at hc
  | cons c' rest ih =>
    rw [queryLoop_cons]
    rcases List.mem_cons.1 hc with rfl | hc'
    · simp [h]
    · simp [ih hc']

/-- When every candidate is skipped, the candidate loop detects nothing. -/
theorem queryLoop_nil_of_all_skipped (W : Nat) (P : Finset String)
    (cands : List RemoteStudy)
    (h : ∀ c ∈ cands, (examineCandidate W P c).1 = none) :
    (queryLoop W P cands).1 = [] := by
  induction cands with
  | nil => rfl
  | cons c rest ih =>
    rw [queryLoop_cons]
    have hc := h c (List.mem_cons_self c rest)
    simp [hc, ih (fun c' hc' => h c' (List.mem_cons_of_mem c hc'))]

/-! ### Helper lemmas about the retriever and the retrieval loop -/

/-- A successful instance loop means every instance was fetched and
written. -/
theorem saveInstances_some_all_ok (insts : List DicomInstance) (n m : Nat)
    (h : saveInstances insts n = some m) :
    ∀ i ∈ insts, i.fileBytes.isSome ∧ i.writeOk = true := by
  induction insts generalizing n with
  | nil => simp
  | cons inst rest ih =>
    intro i hi
    match hb : inst.fileBytes with
    | none => simp [saveInstances, hb] at h
    | some bs =>
      by_cases hw : inst.writeOk
      · rw [saveInstances, hb] at h
        simp only [hw, if_true] at h
        rcases List.mem_cons.1 hi with rfl | hi'
        · exact ⟨by simp [hb], hw⟩
        · exact ih (n + 1) h i hi'
      · simp [saveInstances, hb, hw] at h

/-- An instance that fails to fetch or write makes the instance loop
fail. -/
theorem saveInstances_none_of_bad (insts : List DicomInstance) (n : Nat)
    (i : DicomInstance) (hi : i ∈ insts)
    (hbad : i.fileBytes = none ∨ i.writeOk = false) :
    saveInstances insts n = none := by
  induction insts generalizing n with
  | nil => simp at hi
  | cons inst rest ih =>
    rcases List.mem_cons.1 hi with rfl | hi'
    · rcases hbad with hb | hw
      · simp [saveInstances, hb]
      · match hbs : i.fileBytes with
        | none => simp [saveInstances, hbs]
        | some bs => simp [saveInstances, hbs, hw]
    · match hbs : inst.fileBytes with
      | none => simp [saveInstances, hbs]
      | some bs =>
        by_cases hw : inst.writeOk
        · simp only [saveInstances, hbs, hw, if_true]
          exact ih (n + 1) hi'
        · simp [saveInstances, hbs, hw]

/-- A failed retrieval leaves the ledger alone and the loop moves on to
the remaining studies unchanged, whatever the append-failure pattern. -/
theorem retrievalLoop_skip (studies : List RemoteStudy)
    (ledgerFailAt : Option Nat) (oid : String) (rest : List String)
    (ledger : LedgerFile) (k : Nat)
    (h : retrieveByID studies oid = none) :
    retrievalLoop studies ledgerFailAt (oid :: rest) ledger k =
      retrievalLoop studies ledgerFailAt rest ledger k := by
  simp [retrievalLoop, h]

/-- The retrieval loop only ever appends to the ledger file, also when it
is aborted by a raised ledger append. -/
theorem ledgerLines_subset_retrievalLoop (studies : List RemoteStudy)
    (ledgerFailAt : Option Nat) (ids : List String) (ledger : LedgerFile)
    (k : Nat) :
    ledgerLines ledger ⊆
      ledgerLines (retrievalLoop studies ledgerFailAt ids ledger k).ledger := by
  induction ids generalizing ledger k with
  | nil => exact fun _ h => h
  | cons oid rest ih =>
    match hr : retrieveByID studies oid with
    | none => rw [retrievalLoop_skip _ _ _ _ _ _ hr]; exact ih ledger k
    | some uid =>
      by_cases hne : uid = ""
      · simp only [retrievalLoop, hr, hne, if_true]
        exact ih ledger k
      · by_cases hab : ledgerFailAt = some k
        · simp only [retrievalLoop, hr, hne, if_false, hab, if_true]
          exact fun _ h => h
        · simp only [retrievalLoop, hr, hne, hab, if_false]
          intro l hl
          have h₁ : l ∈ ledgerLines (save_processed_uid uid ledger) := by
            rw [ledgerLines_save]; exact List.mem_append_left _ hl
          exact ih (save_processed_uid uid ledger) (k + 1) h₁

/-- When no ledger append raises, the retrieval loop is never aborted. -/
theorem retrievalLoop_not_aborted (studies : List RemoteStudy)
    (ids : List String) (ledger : LedgerFile) (k : Nat) :
    (retrievalLoop studies none ids ledger k).aborted = false := by
  induction ids generalizing ledger k with
  | nil => rfl
  | cons oid rest ih =>
    match hr : retrieveByID studies oid with
    | none => rw [retrievalLoop_skip _ _ _ _ _ _ hr]; exact ih ledger k
    | some uid =>
      by_cases hne : uid = ""
      · simp only [retrievalLoop, hr, hne, if_true]
        exact ih ledger k
      · simp only [retrievalLoop, hr, hne, if_false]
        simp only [show ((none : Option Nat) = some k) = False by simp,
          if_false]
        exact ih (save_processed_uid uid ledger) (k + 1)

/-- With no raised append, a committed UID ends up as a line of the final
ledger file. -/
theorem committed_mem_ledgerLines (studies : List RemoteStudy)
    (ids : List String) (ledger : LedgerFile) (k : Nat) (oid uid : String)
    (hoid : oid ∈ ids) (hr : retrieveByID studies oid = some uid)
    (hne : uid ≠ "") :
    uid ∈ ledgerLines (retrievalLoop studies none ids ledger k).ledger := by
  induction ids generalizing ledger k with
  | nil => simp at hoid
  | cons oid' rest ih =>
    rcases List.mem_cons.1 hoid with rfl | hoid'
    · simp only [retrievalLoop, hr, hne, if_false,
        show ((none : Option Nat) = some k) = False by simp]
      have h₁ : uid ∈ ledgerLines (save_processed_uid uid ledger) := by
        rw [ledgerLines_save]; exact List.mem_append_right _ (by simp)
      exact ledgerLines_subset_retrievalLoop studies none rest _ (k + 1) h₁
    · match hr' : retrieveByID studies oid' with
      | none => rw [retrievalLoop_skip _ _ _ _ _ _ hr']; exact ih ledger k hoid'
      | some uid' =>
        by_cases hne' : uid' = ""
        · simp only [retrievalLoop, hr', hne', if_true]
          exact ih ledger k hoid'
        · simp only [retrievalLoop, hr', hne', if_false,
            show ((none : Option Nat) = some k) = False by simp]
          exact ih (save_processed_uid uid' ledger) (k + 1) hoid'

/-- A successful retrieval returns exactly the StudyInstanceUID of the
study. -/
theorem retrieve_some_uid_eq (c : RemoteStudy) (uid : String)
    (h : retrieve_and_save_study c = some uid) :
    c.tags.StudyInstanceUID = some uid := by
  match hu : c.tags.StudyInstanceUID with
  | none => simp [retrieve_and_save_study, hu] at h
  | some u =>
    match hs : saveInstances c.instances 0 with
    | none => simp [retrieve_and_save_study, hu, hs] at h
    | some m =>
      simp only [retrieve_and_save_study, hu, hs] at h
      simpa using h

/-- With pairwise distinct Orthanc IDs, resolving a study by its own ID
finds that study. -/
theorem lookupStudy_self (studies : List RemoteStudy) (c : RemoteStudy)
    (hc : c ∈ studies) (hnodup : (studies.map RemoteStudy.orthancID).Nodup) :
    lookupStudy studies c.orthancID = some c := by
  induction studies with
  | nil => simp at hc
  | cons c' rest ih =>
    rcases List.mem_cons.1 hc with rfl | hc'
    · simp [lookupStudy, List.find?]
    · have hid : c'.orthancID ≠ c.orthancID := by
        intro he
        have : c.orthancID ∈ rest.map RemoteStudy.orthancID :=
          List.mem_map.2 ⟨c, hc', rfl⟩
        rw [List.map_cons, List.nodup_cons] at hnodup
        exact hnodup.1 (he ▸ this)
      have ht := ih hc' (by rw [List.map_cons, List.nodup_cons] at hnodup; exact hnodup.2)
      simp only [lookupStudy, List.find?] at ht ⊢
      simp [hid, ht]

/-- A non-blank, stripped UID that is a line of the ledger file is a
member of the loaded processed set. -/
theorem mem_load_of_mem_lines (L : LedgerFile) (u : String)
    (hu : u ∈ ledgerLines L) (htrim : pyStrip u = u) (hne : u ≠ "") :
    u ∈ load_processed_uids L := by
  cases L with
  | none => simp [ledgerLines] at hu
  | some lines => exact (mem_load_some_iff lines u).2 ⟨hne, u, hu, htrim⟩

/-! ### Helper lemmas about one run of `main` -/

/-- When no ledger append raises, the run exits with code 0: every other
exception raised by the client is caught inside `query_for_new_studies`
or `retrieve_and_save_study`. -/
theorem runMain_exitCode_of_ledger_ok (W : Nat) (env : RunEnv)
    (L : LedgerFile) (hledger : env.ledgerFailAt = none) :
    (runMain W env L).exitCode = 0 := by
  obtain ⟨studies, ferr, fl⟩ := env
  have hfl : fl = none := hledger
  subst hfl
  cases ferr with
  | some msg => simp only [runMain]; rfl
  | none =>
    simp only [runMain, query_for_new_studies]
    split
    · rfl
    · simp [retrievalLoop_not_aborted]

/-- When the catalog query does not raise, the discovered IDs of a run are
exactly the output of the candidate loop on the loaded processed set. -/
theorem runMain_detectedIDs (W : Nat) (env : RunEnv) (L : LedgerFile)
    (hfind : env.findError = none) :
    (runMain W env L).detectedIDs =
      (queryLoop W (load_processed_uids L) env.studies).1 := by
  obtain ⟨studies, ferr, fl⟩ := env
  cases ferr with
  | some msg => simp at hfind
  | none =>
    simp only [runMain, query_for_new_studies]
    split <;> simp_all

/-- When the catalog query does not raise, the final ledger of a run is
the ledger threaded through the retrieval loop over the discovered IDs
(the early return for an empty list agrees, since the loop on an empty
list changes nothing). -/
theorem runMain_finalLedger (W : Nat) (env : RunEnv) (L : LedgerFile)
    (hfind : env.findError = none) :
    (runMain W env L).finalLedger =
      (retrievalLoop env.studies env.ledgerFailAt
        (queryLoop W (load_processed_uids L) env.studies).1 L 0).ledger := by
  obtain ⟨studies, ferr, fl⟩ := env
  cases ferr with
  | some msg => simp at hfind
  | none =>
    simp only [runMain, query_for_new_studies]
    split <;> simp_all [retrievalLoop]

/-- When the catalog query does not raise, the committed UIDs of a run are
those the retrieval loop appends. -/
theorem runMain_committed (W : Nat) (env : RunEnv) (L : LedgerFile)
    (hfind : env.findError = none) :
    (runMain W env L).committed =
      (retrievalLoop env.studies env.ledgerFailAt
        (queryLoop W (load_processed_uids L) env.studies).1 L 0).committed := by
  obtain ⟨studies, ferr, fl⟩ := env
  cases ferr with
  | some msg => simp at hfind
  | none =>
    simp only [runMain, query_for_new_studies]
    split <;> simp_all [retrievalLoop]

/-! ### Claim theorems -/

/-- C8: `load_processed_uids` returns the empty set when no ledger file
exists (and, being a total function of the file contents, never fails
there), and for any file contents a string belongs to the loaded set iff
it is the stripped form of some line and is non-blank — so duplicate
lines and trailing blank lines in the on-disk log do not affect
membership. -/
theorem load_ledger_spec :
    load_processed_uids none = ∅ ∧
    ∀ (lines : List String) (u : String),
      (u ∈ load_processed_uids (some lines) ↔
        u ≠ "" ∧ ∃ l ∈ lines, pyStrip l = u) :=
  ⟨rfl, mem_load_some_iff⟩

/-- C2: for a candidate study with resolvable UID `u` and a parsable
timestamp `T`, the change detector includes the study iff `T` is at least
the window start `W` and `u` is not already in the processed set. The
inclusion test makes no reference to the current time, so no upper bound
is enforced and a study timestamped in the future is still included. -/
theorem window_inclusion_iff (W : Nat) (P : Finset String) (c : RemoteStudy)
    (u d : String) (T : Nat)
    (hu : c.tags.StudyInstanceUID = some u) (hne : u ≠ "")
    (hd : c.tags.StudyDate = some d) (hdne : d ≠ "")
    (hp : strptime14 (d ++ splitDot0 (c.tags.StudyTime.getD "000000")) = some T) :
    (examineCandidate W P c).1 = some c.orthancID ↔ (W ≤ T ∧ u ∉ P) := by
  by_cases hmem : u ∈ P
  · rw [examineCandidate_of_mem W P c u hu hne hmem]
    simp [hmem]
  · rw [examineCandidate_parsed W P c u d T hu hne hmem hd hdne hp]
    by_cases hT : W ≤ T <;> simp [hT, hmem]

/-- Witness for C2 at a concrete candidate whose timestamp lies in the
year 9999 — far in the future of any plausible window start — and is
nevertheless included. -/
theorem window_inclusion_iff_witness :
    (examineCandidate 20240101000000 (∅ : Finset String)
      ⟨"o9", ⟨some "1.2.9", some "99991231", some "235959"⟩, []⟩).1 =
      some "o9" :=
  (window_inclusion_iff 20240101000000 ∅
      ⟨"o9", ⟨some "1.2.9", some "99991231", some "235959"⟩, []⟩
      "1.2.9" "99991231" 99991231235959 rfl (by decide) rfl (by decide)
      (by rfl)).2 ⟨by decide, by simp⟩

/-- C6 counterexample: a candidate whose recency timestamp is absent
(`StudyDate` missing) is skipped, but the printed log for it is empty —
no warning is emitted, contrary to the claim that a warning is logged in
the absent case as well. -/
theorem absent_timestamp_no_warning :
    (examineCandidate 0 (∅ : Finset String)
      ⟨"o1", ⟨some "1.9", none, none⟩, []⟩) = (none, []) := by
  decide

/-- C6 amended: a candidate whose timestamp is absent (or blank) is
skipped silently with no warning, while a candidate whose timestamp is
present but unparsable is skipped with a logged warning; in both cases
the study is not included in the result. -/
theorem timestamp_skip_behavior (W : Nat) (P : Finset String)
    (c : RemoteStudy) (u : String) (hu : c.tags.StudyInstanceUID = some u)
    (hne : u ≠ "") (hmem : u ∉ P) :
    ((c.tags.StudyDate = none ∨ c.tags.StudyDate = some "") →
      examineCandidate W P c = (none, [])) ∧
    (∀ d, c.tags.StudyDate = some d → d ≠ "" →
      strptime14 (d ++ splitDot0 (c.tags.StudyTime.getD "000000")) = none →
      examineCandidate W P c =
        (none, [LogEvent.warnUnparsableDateTime u d (c.tags.StudyTime.getD "000000")])) :=
  ⟨fun hd => examineCandidate_noDate W P c u hu hne hmem hd,
   fun d hd hdne hp => examineCandidate_unparsable W P c u d hu hne hmem hd hdne hp⟩

/-- Witness for the amended C6: a candidate with `StudyDate` of `"2024"`
and `StudyTime` of `"99"` fails to parse and is skipped with the
warning. -/
theorem timestamp_skip_behavior_witness :
    examineCandidate 0 (∅ : Finset String)
      ⟨"o2", ⟨some "1.8", some "2024", some "99"⟩, []⟩ =
      (none, [LogEvent.warnUnparsableDateTime "1.8" "2024" "99"]) :=
  (timestamp_skip_behavior 0 ∅ ⟨"o2", ⟨some "1.8", some "2024", some "99"⟩, []⟩
      "1.8" rfl (by decide) (by simp)).2 "2024" rfl (by decide) (by rfl)

/-- C7: a candidate lacking a resolvable StudyInstanceUID (missing or
empty) is skipped with a logged warning, and the candidate loop goes on
to produce for the remaining candidates exactly what it would produce
without this one, so the study is never detected, hence never retrieved
or committed. -/
theorem missing_uid_skipped_with_warning (W : Nat) (P : Finset String)
    (c : RemoteStudy) (rest : List RemoteStudy)
    (h : optStrTruthy c.tags.StudyInstanceUID = false) :
    examineCandidate W P c = (none, [LogEvent.warnNoStudyUID c.orthancID]) ∧
    queryLoop W P (c :: rest) =
      ((queryLoop W P rest).1,
       LogEvent.warnNoStudyUID c.orthancID :: (queryLoop W P rest).2) := by
  have he := examineCandidate_noUID W P c h
  refine ⟨he, ?_⟩
  rw [queryLoop_cons, he]
  simp

/-- Witness for C7: a candidate with no UID tag among one with a valid
one; the loop result is that of the remaining candidate alone plus the
warning. -/
theorem missing_uid_skipped_with_warning_witness :
    examineCandidate 0 (∅ : Finset String)
      ⟨"oX", ⟨none, some "20240101", some "120000"⟩, []⟩ =
      (none, [LogEvent.warnNoStudyUID "oX"]) ∧
    queryLoop 0 (∅ : Finset String)
      [⟨"oX", ⟨none, some "20240101", some "120000"⟩, []⟩,
       ⟨"oY", ⟨some "1.2.8", some "20240101", some "120000"⟩, []⟩] =
      ((queryLoop 0 ∅ [⟨"oY", ⟨some "1.2.8", some "20240101", some "120000"⟩, []⟩]).1,
       LogEvent.warnNoStudyUID "oX" ::
        (queryLoop 0 ∅ [⟨"oY", ⟨some "1.2.8", some "20240101", some "120000"⟩, []⟩]).2) :=
  missing_uid_skipped_with_warning 0 ∅
    ⟨"oX", ⟨none, some "20240101", some "120000"⟩, []⟩
    [⟨"oY", ⟨some "1.2.8", some "20240101", some "120000"⟩, []⟩] (by rfl)

/-- C4, evaluated at the failing input: when the connection to the
archive fails as the catalog query is issued (`tools/find` raises), the
exception is caught inside `query_for_new_studies`, the run finds no
studies and exits with code 0 — not with a non-zero code as the claim
states. The `except httpx.ConnectError` with `sys.exit(1)` in `main`
shows the intended fatal behavior, but it is unreachable for this
failure because the inner blanket `except` swallows the exception
first. -/
theorem connect_error_query_exits_zero :
    runMain 20240101000000
        ⟨[⟨"o5", ⟨some "1.2.5", some "20240101", some "120000"⟩,
           [⟨"i1", some [0], true⟩]⟩], some "ConnectError", none⟩
        (some ["1.2.3"]) =
      { finalLedger := some ["1.2.3"], detectedIDs := [], committed := [],
        exitCode := 0,
        log := [LogEvent.errorDuringQuery "ConnectError"] } := by
  rfl

/-- C5 counterexample: the claim says nothing except the fatal
catalog-connection case terminates the process, but in a run whose
catalog connection is fine (`findError = none`) and whose single ledger
append raises an I/O error, the exception from `save_processed_uid`
reaches the `except Exception` handler of `main` (`pacs-query.py:174`)
and `sys.exit(1)`: the run terminates with exit code 1, the study is
left uncommitted and the ledger file unchanged. -/
theorem ledger_append_error_exits_nonzero :
    runMain 20240101000000
        ⟨[⟨"oS", ⟨some "1.2.6", some "20240101", some "120000"⟩,
           [⟨"i1", some [0], true⟩]⟩], none, some 0⟩ (some ["1.2.3"]) =
      { finalLedger := some ["1.2.3"], detectedIDs := ["oS"],
        committed := [], exitCode := 1,
        log := [LogEvent.foundNewStudy "1.2.6"] } := by
  rfl

/-- C5 amended: a retrieval failure of one study does not terminate the
run — the loop leaves the ledger untouched on that study and continues
over the remaining studies exactly, whatever the append-failure pattern
— and when no ledger append raises nothing terminates the process, which
exits 0; an I/O failure of a ledger append, however, does terminate the
process with a non-zero exit besides the catalog-connection case (see
the counterexample). -/
theorem per_study_failure_continues_run (env : RunEnv) (W : Nat)
    (ledger : LedgerFile) (oid : String) (rest : List String)
    (failAt : Option Nat) (k : Nat)
    (h : retrieveByID env.studies oid = none) :
    retrievalLoop env.studies failAt (oid :: rest) ledger k =
      retrievalLoop env.studies failAt rest ledger k ∧
    (env.ledgerFailAt = none → (runMain W env ledger).exitCode = 0) :=
  ⟨retrievalLoop_skip env.studies failAt oid rest ledger k h,
   fun hl => runMain_exitCode_of_ledger_ok W env ledger hl⟩

/-- Witness for C5: a study whose single instance fails to fetch; the
loop over it and one further study equals the loop over the further study
alone, and the run, with no raised ledger append, exits 0. -/
theorem per_study_failure_continues_run_witness :
    retrievalLoop
        (⟨[⟨"oF", ⟨some "1.5", some "20240101", some "120000"⟩,
            [⟨"i1", none, true⟩]⟩], none, none⟩ : RunEnv).studies none
        ("oF" :: ["oG"]) none 0 =
      retrievalLoop
        (⟨[⟨"oF", ⟨some "1.5", some "20240101", some "120000"⟩,
            [⟨"i1", none, true⟩]⟩], none, none⟩ : RunEnv).studies none
        ["oG"] none 0 ∧
    (runMain 0
        ⟨[⟨"oF", ⟨some "1.5", some "20240101", some "120000"⟩,
           [⟨"i1", none, true⟩]⟩], none, none⟩ none).exitCode = 0 := by
  have h := per_study_failure_continues_run
    ⟨[⟨"oF", ⟨some "1.5", some "20240101", some "120000"⟩,
       [⟨"i1", none, true⟩]⟩], none, none⟩ 0 none "oF" ["oG"] none 0 (by rfl)
  exact ⟨h.1, h.2 rfl⟩

/-- C3: the ledger commit happens only after every instance of the study
has been fetched and written — a successful retrieval implies every
instance fetched and written — and when any instance fails to fetch or
write, the whole study fails: the retrieval returns no UID, and the
retrieval loop over this study leaves the ledger exactly as it is for the
remaining studies, so no partial commit is observable in the ledger. -/
theorem commit_only_after_full_retrieval (studies : List RemoteStudy)
    (ledgerFailAt : Option Nat) (c : RemoteStudy) (oid : String)
    (rest : List String) (ledger : LedgerFile) (k : Nat)
    (hl : lookupStudy studies oid = some c) :
    (∀ uid, retrieve_and_save_study c = some uid →
      ∀ i ∈ c.instances, i.fileBytes.isSome ∧ i.writeOk = true) ∧
    (∀ i ∈ c.instances, (i.fileBytes = none ∨ i.writeOk = false) →
      retrieve_and_save_study c = none ∧
      retrievalLoop studies ledgerFailAt (oid :: rest) ledger k =
        retrievalLoop studies ledgerFailAt rest ledger k) := by
  constructor
  · intro uid hr i hi
    match hu : c.tags.StudyInstanceUID with
    | none => simp [retrieve_and_save_study, hu] at hr
    | some u =>
      match hs : saveInstances c.instances 0 with
      | none => simp [retrieve_and_save_study, hu, hs] at hr
      | some m => exact saveInstances_some_all_ok c.instances 0 m hs i hi
  · intro i hi hbad
    have hs := saveInstances_none_of_bad c.instances 0 i hi hbad
    have hr : retrieve_and_save_study c = none := by
      match hu : c.tags.StudyInstanceUID with
      | none => simp [retrieve_and_save_study, hu]
      | some u => simp [retrieve_and_save_study, hu, hs]
    refine ⟨hr, retrievalLoop_skip studies ledgerFailAt oid rest ledger k ?_⟩
    simp [retrieveByID, hl, hr]

/-- Witness for C3: a study of five instances whose third fails to fetch;
retrieval fails and the ledger already holding one UID is untouched. -/
theorem commit_only_after_full_retrieval_witness :
    retrieve_and_save_study
        ⟨"oB", ⟨some "1.2.5", some "20240101", some "120000"⟩,
         [⟨"i1", some [0], true⟩, ⟨"i2", some [1], true⟩, ⟨"i3", none, true⟩,
          ⟨"i4", some [3], true⟩, ⟨"i5", some [4], true⟩]⟩ = none ∧
    retrievalLoop
        [⟨"oB", ⟨some "1.2.5", some "20240101", some "120000"⟩,
          [⟨"i1", some [0], true⟩, ⟨"i2", some [1], true⟩, ⟨"i3", none, true⟩,
           ⟨"i4", some [3], true⟩, ⟨"i5", some [4], true⟩]⟩] none
        ("oB" :: []) (some ["1.2.3"]) 0 =
      retrievalLoop
        [⟨"oB", ⟨some "1.2.5", some "20240101", some "120000"⟩,
          [⟨"i1", some [0], true⟩, ⟨"i2", some [1], true⟩, ⟨"i3", none, true⟩,
           ⟨"i4", some [3], true⟩, ⟨"i5", some [4], true⟩]⟩] none
        [] (some ["1.2.3"]) 0 :=
  (commit_only_after_full_retrieval
      [⟨"oB", ⟨some "1.2.5", some "20240101", some "120000"⟩,
        [⟨"i1", some [0], true⟩, ⟨"i2", some [1], true⟩, ⟨"i3", none, true⟩,
         ⟨"i4", some [3], true⟩, ⟨"i5", some [4], true⟩]⟩] none
      ⟨"oB", ⟨some "1.2.5", some "20240101", some "120000"⟩,
       [⟨"i1", some [0], true⟩, ⟨"i2", some [1], true⟩, ⟨"i3", none, true⟩,
        ⟨"i4", some [3], true⟩, ⟨"i5", some [4], true⟩]⟩
      "oB" [] (some ["1.2.3"]) 0 (by rfl)).2
    ⟨"i3", none, true⟩ (by decide) (Or.inl rfl)

/-- C1: a StudyUID already in the loaded processed set is never retrieved
and never re-committed: with the ledger holding `1.2.3` and two in-window
candidates `1.2.3` and `1.2.4`, exactly the `1.2.4` study is detected,
retrieved and appended, whatever the date, time and instances of the
`1.2.3` candidate are. -/
theorem processed_uid_never_refetched
    (oid3 : String) (d3 t3 : Option String) (i3 : List DicomInstance)
    (d4 t4 : String) (i4 : List DicomInstance) (W T4 n4 : Nat)
    (hoid3 : oid3 ≠ "o4")
    (hd4 : d4 ≠ "") (hp4 : strptime14 (d4 ++ splitDot0 t4) = some T4)
    (hW4 : W ≤ T4) (hs4 : saveInstances i4 0 = some n4) :
    runMain W ⟨[⟨oid3, ⟨some "1.2.3", d3, t3⟩, i3⟩,
                ⟨"o4", ⟨some "1.2.4", some d4, some t4⟩, i4⟩], none, none⟩
        (some ["1.2.3"]) =
      { finalLedger := some ["1.2.3", "1.2.4"], detectedIDs := ["o4"],
        committed := ["1.2.4"], exitCode := 0,
        log := [LogEvent.foundNewStudy "1.2.4"] } := by
  have hmem3 : "1.2.3" ∈ load_processed_uids (some ["1.2.3"]) := by decide
  have hmem4 : "1.2.4" ∉ load_processed_uids (some ["1.2.3"]) := by decide
  have hDet3 : examineCandidate W (load_processed_uids (some ["1.2.3"]))
      ⟨oid3, ⟨some "1.2.3", d3, t3⟩, i3⟩ = (none, []) :=
    examineCandidate_of_mem W _ _ "1.2.3" rfl (by decide) hmem3
  have hDet4 : examineCandidate W (load_processed_uids (some ["1.2.3"]))
      ⟨"o4", ⟨some "1.2.4", some d4, some t4⟩, i4⟩ =
      (some "o4", [LogEvent.foundNewStudy "1.2.4"]) := by
    have h := examineCandidate_parsed W (load_processed_uids (some ["1.2.3"]))
      ⟨"o4", ⟨some "1.2.4", some d4, some t4⟩, i4⟩ "1.2.4" d4 T4 rfl
      (by decide) hmem4 rfl hd4 hp4
    rw [h, if_pos hW4]
  have hQ : queryLoop W (load_processed_uids (some ["1.2.3"]))
      [⟨oid3, ⟨some "1.2.3", d3, t3⟩, i3⟩,
       ⟨"o4", ⟨some "1.2.4", some d4, some t4⟩, i4⟩] =
      (["o4"], [LogEvent.foundNewStudy "1.2.4"]) := by
    simp [queryLoop, hDet3, hDet4]
  have hlook4 : lookupStudy
      [⟨oid3, ⟨some "1.2.3", d3, t3⟩, i3⟩,
       ⟨"o4", ⟨some "1.2.4", some d4, some t4⟩, i4⟩] "o4" =
      some ⟨"o4", ⟨some "1.2.4", some d4, some t4⟩, i4⟩ := by
    simp [lookupStudy, List.find?, hoid3]
  have hret4 : retrieveByID
      [⟨oid3, ⟨some "1.2.3", d3, t3⟩, i3⟩,
       ⟨"o4", ⟨some "1.2.4", some d4, some t4⟩, i4⟩] "o4" = some "1.2.4" := by
    simp [retrieveByID, hlook4, retrieve_and_save_study, hs4]
  have hRL : retrievalLoop
      [⟨oid3, ⟨some "1.2.3", d3, t3⟩, i3⟩,
       ⟨"o4", ⟨some "1.2.4", some d4, some t4⟩, i4⟩] none ["o4"]
      (some ["1.2.3"]) 0 =
      ⟨some ["1.2.3", "1.2.4"], ["1.2.4"], false⟩ := by
    simp [retrievalLoop, hret4, save_processed_uid]
  simp only [runMain, query_for_new_studies]
  simp [hQ, hRL]

/-- Witness for C1: the `1.2.3` candidate carries a perfectly in-window
timestamp and instances that would save fine, yet only `1.2.4` is
retrieved and committed. -/
theorem processed_uid_never_refetched_witness :
    runMain 20240101000000
        ⟨[⟨"o3", ⟨some "1.2.3", some "20240101", some "110000"⟩,
           [⟨"j1", some [7], true⟩]⟩,
          ⟨"o4", ⟨some "1.2.4", some "20240101", some "120000"⟩,
           [⟨"i1", some [0], true⟩]⟩], none, none⟩
        (some ["1.2.3"]) =
      { finalLedger := some ["1.2.3", "1.2.4"], detectedIDs := ["o4"],
        committed := ["1.2.4"], exitCode := 0,
        log := [LogEvent.foundNewStudy "1.2.4"] } :=
  processed_uid_never_refetched "o3" (some "20240101") (some "110000")
    [⟨"j1", some [7], true⟩] "20240101" "120000" [⟨"i1", some [0], true⟩]
    20240101000000 20240101120000 1 (by decide) (by decide) (by rfl)
    (by decide) (by rfl)

/-- C10: the in-memory processed set is the snapshot loaded at run start
and is not refreshed as studies commit: two candidates with distinct
Orthanc IDs whose metadata carry the same StudyUID, both new and in
window and both retrievable, are each retrieved, and the UID is appended
to the ledger twice within the run. -/
theorem same_uid_committed_twice
    (oA oB u dA tA dB tB : String) (iA iB : List DicomInstance)
    (L0 : List String) (W TA TB nA nB : Nat)
    (hoid : oA ≠ oB) (hne : u ≠ "")
    (hmem : u ∉ load_processed_uids (some L0))
    (hdA : dA ≠ "") (hpA : strptime14 (dA ++ splitDot0 tA) = some TA)
    (hWA : W ≤ TA)
    (hdB : dB ≠ "") (hpB : strptime14 (dB ++ splitDot0 tB) = some TB)
    (hWB : W ≤ TB)
    (hsA : saveInstances iA 0 = some nA) (hsB : saveInstances iB 0 = some nB) :
    runMain W ⟨[⟨oA, ⟨some u, some dA, some tA⟩, iA⟩,
                ⟨oB, ⟨some u, some dB, some tB⟩, iB⟩], none, none⟩ (some L0) =
      { finalLedger := some (L0 ++ [u, u]), detectedIDs := [oA, oB],
        committed := [u, u], exitCode := 0,
        log := [LogEvent.foundNewStudy u, LogEvent.foundNewStudy u] } := by
  have hDetA : examineCandidate W (load_processed_uids (some L0))
      ⟨oA, ⟨some u, some dA, some tA⟩, iA⟩ =
      (some oA, [LogEvent.foundNewStudy u]) := by
    have h := examineCandidate_parsed W (load_processed_uids (some L0))
      ⟨oA, ⟨some u, some dA, some tA⟩, iA⟩ u dA TA rfl hne hmem rfl hdA hpA
    rw [h, if_pos hWA]
  have hDetB : examineCandidate W (load_processed_uids (some L0))
      ⟨oB, ⟨some u, some dB, some tB⟩, iB⟩ =
      (some oB, [LogEvent.foundNewStudy u]) := by
    have h := examineCandidate_parsed W (load_processed_uids (some L0))
      ⟨oB, ⟨some u, some dB, some tB⟩, iB⟩ u dB TB rfl hne hmem rfl hdB hpB
    rw [h, if_pos hWB]
  have hQ : queryLoop W (load_processed_uids (some L0))
      [⟨oA, ⟨some u, some dA, some tA⟩, iA⟩,
       ⟨oB, ⟨some u, some dB, some tB⟩, iB⟩] =
      ([oA, oB], [LogEvent.foundNewStudy u, LogEvent.foundNewStudy u]) := by
    simp [queryLoop, hDetA, hDetB]
  have hlookA : lookupStudy
      [⟨oA, ⟨some u, some dA, some tA⟩, iA⟩,
       ⟨oB, ⟨some u, some dB, some tB⟩, iB⟩] oA =
      some ⟨oA, ⟨some u, some dA, some tA⟩, iA⟩ := by
    simp [lookupStudy, List.find?]
  have hlookB : lookupStudy
      [⟨oA, ⟨some u, some dA, some tA⟩, iA⟩,
       ⟨oB, ⟨some u, some dB, some tB⟩, iB⟩] oB =
      some ⟨oB, ⟨some u, some dB, some tB⟩, iB⟩ := by
    simp [lookupStudy, List.find?, hoid]
  have hretA : retrieveByID
      [⟨oA, ⟨some u, some dA, some tA⟩, iA⟩,
       ⟨oB, ⟨some u, some dB, some tB⟩, iB⟩] oA = some u := by
    simp [retrieveByID, hlookA, retrieve_and_save_study, hsA]
  have hretB : retrieveByID
      [⟨oA, ⟨some u, some dA, some tA⟩, iA⟩,
       ⟨oB, ⟨some u, some dB, some tB⟩, iB⟩] oB = some u := by
    simp [retrieveByID, hlookB, retrieve_and_save_study, hsB]
  have hRL : retrievalLoop
      [⟨oA, ⟨some u, some dA, some tA⟩, iA⟩,
       ⟨oB, ⟨some u, some dB, some tB⟩, iB⟩] none [oA, oB] (some L0) 0 =
      ⟨some (L0 ++ [u, u]), [u, u], false⟩ := by
    simp only [retrievalLoop, hretA, hretB, if_neg hne, save_processed_uid,
      show ∀ k : Nat, ((none : Option Nat) = some k) = False by simp,
      if_false]
    simp
  simp only [runMain, query_for_new_studies]
  simp [hQ, hRL]

/-- Witness for C10: two distinct Orthanc IDs resolving to StudyUID
`1.2.9`, both retrieved; the ledger gains the line `1.2.9` twice. -/
theorem same_uid_committed_twice_witness :
    runMain 20240101000000
        ⟨[⟨"oA", ⟨some "1.2.9", some "20240101", some "090000"⟩,
           [⟨"i1", some [0], true⟩]⟩,
          ⟨"oB", ⟨some "1.2.9", some "20240101", some "100000"⟩,
           [⟨"i2", some [1], true⟩]⟩], none, none⟩ (some ["1.2.3"]) =
      { finalLedger := some (["1.2.3"] ++ ["1.2.9", "1.2.9"]),
        detectedIDs := ["oA", "oB"], committed := ["1.2.9", "1.2.9"],
        exitCode := 0,
        log := [LogEvent.foundNewStudy "1.2.9",
                LogEvent.foundNewStudy "1.2.9"] } :=
  same_uid_committed_twice "oA" "oB" "1.2.9" "20240101" "090000" "20240101"
    "100000" [⟨"i1", some [0], true⟩] [⟨"i2", some [1], true⟩] ["1.2.3"]
    20240101000000 20240101090000 20240101100000 1 1 (by decide) (by decide)
    (by decide) (by decide) (by rfl) (by decide) (by decide) (by rfl)
    (by decide) (by rfl) (by rfl)

/-- C9: running the sync twice with the same remote state is idempotent.
With the catalog reachable, the Orthanc IDs pairwise distinct and every
study detected by the first run successfully retrieved (its UID truthy
and stable under stripping, as DICOM UIDs are), the second run — whose
window start may have moved forward — detects nothing, commits nothing
(zero additional downloads) and leaves the ledger file unchanged. -/
theorem sync_idempotent (W W2 : Nat) (env : RunEnv) (L0 : LedgerFile)
    (hfind : env.findError = none) (hledger : env.ledgerFailAt = none)
    (hW : W ≤ W2)
    (hnodup : (env.studies.map RemoteStudy.orthancID).Nodup)
    (hok : ∀ oid ∈ (runMain W env L0).detectedIDs,
      ∃ uid, retrieveByID env.studies oid = some uid ∧ uid ≠ "" ∧
        pyStrip uid = uid) :
    (runMain W2 env (runMain W env L0).finalLedger).detectedIDs = [] ∧
    (runMain W2 env (runMain W env L0).finalLedger).committed = [] ∧
    (runMain W2 env (runMain W env L0).finalLedger).finalLedger =
      (runMain W env L0).finalLedger := by
  have hL1eq : (runMain W env L0).finalLedger =
      (retrievalLoop env.studies none
        (queryLoop W (load_processed_uids L0) env.studies).1 L0 0).ledger := by
    rw [runMain_finalLedger W env L0 hfind, hledger]
  have hmono : ∀ u, u ∈ load_processed_uids L0 →
      u ∈ load_processed_uids (runMain W env L0).finalLedger := by
    intro u hu
    apply load_mono_of_lines_subset L0 _ _ u hu
    rw [hL1eq]
    exact ledgerLines_subset_retrievalLoop env.studies none _ L0 0
  have hall : ∀ c ∈ env.studies,
      (examineCandidate W2
        (load_processed_uids (runMain W env L0).finalLedger) c).1 = none := by
    intro c hc
    match hu : c.tags.StudyInstanceUID with
    | none =>
      rw [examineCandidate_noUID W2 _ c (by simp [optStrTruthy, hu])]
    | some u =>
      by_cases hne : u = ""
      · rw [examineCandidate_noUID W2 _ c (by simp [optStrTruthy, hu, hne])]
      · by_cases hmem2 : u ∈ load_processed_uids (runMain W env L0).finalLedger
        · rw [examineCandidate_of_mem W2 _ c u hu hne hmem2]
        · have hmem1 : u ∉ load_processed_uids L0 := fun h => hmem2 (hmono u h)
          match hd : c.tags.StudyDate with
          | none => rw [examineCandidate_noDate W2 _ c u hu hne hmem2 (Or.inl hd)]
          | some d =>
            by_cases hdne : d = ""
            · subst hdne
              rw [examineCandidate_noDate W2 _ c u hu hne hmem2 (Or.inr hd)]
            · match hp : strptime14 (d ++ splitDot0 (c.tags.StudyTime.getD "000000")) with
              | none =>
                rw [examineCandidate_unparsable W2 _ c u d hu hne hmem2 hd hdne hp]
              | some T =>
                rw [examineCandidate_parsed W2 _ c u d T hu hne hmem2 hd hdne hp]
                by_cases hT : W2 ≤ T
                · exfalso
                  have hT1 : W ≤ T := le_trans hW hT
                  have hDet1 : (examineCandidate W (load_processed_uids L0) c).1 =
                      some c.orthancID := by
                    rw [examineCandidate_parsed W _ c u d T hu hne hmem1 hd hdne hp,
                      if_pos hT1]
                  have hmemdet : c.orthancID ∈
                      (queryLoop W (load_processed_uids L0) env.studies).1 :=
                    mem_queryLoop_of_detect W _ env.studies c c.orthancID hc hDet1
                  have hdet' : c.orthancID ∈ (runMain W env L0).detectedIDs := by
                    rw [runMain_detectedIDs W env L0 hfind]
                    exact hmemdet
                  obtain ⟨uid, hret, hune, hstrip⟩ := hok c.orthancID hdet'
                  have hlook : lookupStudy env.studies c.orthancID = some c :=
                    lookupStudy_self env.studies c hc hnodup
                  have hretc : retrieve_and_save_study c = some uid := by
                    simpa [retrieveByID, hlook] using hret
                  have huid : c.tags.StudyInstanceUID = some uid :=
                    retrieve_some_uid_eq c uid hretc
                  rw [hu] at huid
                  injection huid with huu
                  have hin : uid ∈ ledgerLines (runMain W env L0).finalLedger := by
                    rw [hL1eq]
                    exact committed_mem_ledgerLines env.studies _ L0 0
                      c.orthancID uid hmemdet hret hune
                  have hmm : uid ∈
                      load_processed_uids (runMain W env L0).finalLedger :=
                    mem_load_of_mem_lines _ uid hin hstrip hune
                  rw [huu] at hmem2
                  exact hmem2 hmm
                · rw [if_neg hT]
  have hQ2 : (queryLoop W2
      (load_processed_uids (runMain W env L0).finalLedger) env.studies).1 = [] :=
    queryLoop_nil_of_all_skipped W2 _ env.studies hall
  refine ⟨?_, ?_, ?_⟩
  · rw [runMain_detectedIDs W2 env _ hfind, hQ2]
  · rw [runMain_committed W2 env _ hfind, hQ2]
    rfl
  · rw [runMain_finalLedger W2 env _ hfind, hQ2]
    rfl

/-- Witness for C9: one new in-window study, retrieved by the first run;
the second run over the resulting ledger detects and commits nothing and
leaves the ledger as it was. -/
theorem sync_idempotent_witness :
    (runMain 20240101000000
        ⟨[⟨"o1", ⟨some "1.2.7", some "20240102", some "080000"⟩,
           [⟨"i1", some [5], true⟩]⟩], none, none⟩
        (runMain 20240101000000
          ⟨[⟨"o1", ⟨some "1.2.7", some "20240102", some "080000"⟩,
             [⟨"i1", some [5], true⟩]⟩], none, none⟩ none).finalLedger).detectedIDs
      = [] ∧
    (runMain 20240101000000
        ⟨[⟨"o1", ⟨some "1.2.7", some "20240102", some "080000"⟩,
           [⟨"i1", some [5], true⟩]⟩], none, none⟩
        (runMain 20240101000000
          ⟨[⟨"o1", ⟨some "1.2.7", some "20240102", some "080000"⟩,
             [⟨"i1", some [5], true⟩]⟩], none, none⟩ none).finalLedger).committed
      = [] ∧
    (runMain 20240101000000
        ⟨[⟨"o1", ⟨some "1.2.7", some "20240102", some "080000"⟩,
           [⟨"i1", some [5], true⟩]⟩], none, none⟩
        (runMain 20240101000000
          ⟨[⟨"o1", ⟨some "1.2.7", some "20240102", some "080000"⟩,
             [⟨"i1", some [5], true⟩]⟩], none, none⟩ none).finalLedger).finalLedger
      = (runMain 20240101000000
          ⟨[⟨"o1", ⟨some "1.2.7", some "20240102", some "080000"⟩,
             [⟨"i1", some [5], true⟩]⟩], none, none⟩ none).finalLedger :=
  sync_idempotent 20240101000000 20240101000000
    ⟨[⟨"o1", ⟨some "1.2.7", some "20240102", some "080000"⟩,
       [⟨"i1", some [5], true⟩]⟩], none, none⟩ none rfl rfl (le_refl _)
    (by decide)
    (by
      intro oid hoid
      have hdet : (runMain 20240101000000
          ⟨[⟨"o1", ⟨some "1.2.7", some "20240102", some "080000"⟩,
             [⟨"i1", some [5], true⟩]⟩], none, none⟩ none).detectedIDs = ["o1"] := by
        decide
      rw [hdet] at hoid
      have : oid = "o1" := by simpa using hoid
      subst this
      exact ⟨"1.2.7", by decide, by decide, by decide⟩)

end PacsQuery
